import Mathlib

/-!
Verification development for the orb-ui adapter normalization engine
(`src/adapters/vapi/index.ts` and the CircleTheme interpolation strategies).

The TypeScript source is shallowly embedded: numbers become exact rationals,
module-level mutable state (`emaVol`, `stateDebounceTimer`) becomes explicit
state threading, `setTimeout`-based debouncing becomes a deadline stored in
the emitter state and fired when time passes it, and the event wiring of
`createVapiAdapter.subscribe` becomes a step function over an event trace.
-/

namespace OrbUI

/-- Canonical conversational states (`OrbState` in the source). -/
inductive OrbState
  | idle
  | connecting
  | listening
  | thinking
  | speaking
  | error
  | disconnected
deriving DecidableEq, Repr

/-- `const NOISE_FLOOR = 0.12` from the vapi adapter. -/
def NOISE_FLOOR : ℚ := 12 / 100

/-- The noise gate + linear rescale applied to a raw sample:
`const gated = raw < NOISE_FLOOR ? 0 : (raw - NOISE_FLOOR) / (1 - NOISE_FLOOR)`.
There is no clamping in the source. -/
def gateRaw (raw : ℚ) : ℚ :=
  if raw < NOISE_FLOOR then 0 else (raw - NOISE_FLOOR) / (1 - NOISE_FLOOR)

/-- `normalizeVapiVolume` from the vapi adapter, with the module-level
`emaVol` state passed explicitly.  Returns the new `emaVol`, which is also
the value handed to `onVolumeChange`:
`rate = gated > emaVol ? 0.65 : 0.12; emaVol = emaVol + (gated - emaVol) * rate`. -/
def normalizeVapiVolume (emaVol raw : ℚ) : ℚ :=
  let gated := gateRaw raw
  let rate : ℚ := if gated > emaVol then 65 / 100 else 12 / 100
  emaVol + (gated - emaVol) * rate

/-- Feed a list of raw samples through `normalizeVapiVolume`, starting from a
given `emaVol`, collecting the values delivered to the consumer. -/
def runConditioner (emaVol : ℚ) : List ℚ → List ℚ
  | [] => []
  | r :: rs =>
      let e := normalizeVapiVolume emaVol r
      e :: runConditioner e rs

/-- The debounce window: `setTimeout(..., 350)`. -/
def DEBOUNCE_MS : ℕ := 350

/-- State of the debounced emitter produced by `makeStateEmitter`:
`lastEmitted` is the closure variable of the same name, and `timer` models the
module-level `stateDebounceTimer` — `some (d, held)` is a pending `setTimeout`
that will deliver `held` at time `d` unless cleared. -/
structure EmitterState where
  lastEmitted : OrbState
  timer : Option (ℕ × OrbState)
deriving DecidableEq, Repr

/-- Emitter state right after `makeStateEmitter` runs: `lastEmitted = 'idle'`,
no pending timer. -/
def emitterInit : EmitterState := ⟨OrbState.idle, none⟩

/-- Fire the pending timer if its deadline `d` has been reached by time `t`:
the timer body runs `lastEmitted = next; onStateChange(next);
stateDebounceTimer = null`, emitting at the deadline. -/
def fireDue (s : EmitterState) (t : ℕ) : EmitterState × List (ℕ × OrbState) :=
  match s.timer with
  | some (d, held) => if d ≤ t then (⟨held, none⟩, [(d, held)]) else (s, [])
  | none => (s, [])

/-- The `emitState` closure returned by `makeStateEmitter`, called at time `t`
with requested state `next`.  After any due timer has fired, the body runs:
clear the timer; if `lastEmitted === 'speaking' && next === 'listening'`, arm a
350 ms timer and emit nothing now; otherwise emit `next` immediately. -/
def emitState (s : EmitterState) (t : ℕ) (next : OrbState) :
    EmitterState × List (ℕ × OrbState) :=
  let fired := fireDue s t
  let s2 : EmitterState := ⟨fired.1.lastEmitted, none⟩
  if s2.lastEmitted = OrbState.speaking ∧ next = OrbState.listening then
    (⟨s2.lastEmitted, some (t + DEBOUNCE_MS, next)⟩, fired.2)
  else
    (⟨next, none⟩, fired.2 ++ [(t, next)])

/-- Run the emitter over a timed trace of requested transitions, collecting
every `(time, state)` pair delivered to `onStateChange`. -/
def runEmitter (s : EmitterState) :
    List (ℕ × OrbState) → EmitterState × List (ℕ × OrbState)
  | [] => (s, [])
  | (t, n) :: rest =>
      let r := emitState s t n
      let r2 := runEmitter r.1 rest
      (r2.1, r.2 ++ r2.2)

/-- Let time advance to `T` with no further request: a pending timer whose
deadline has arrived fires. -/
def flushAt (s : EmitterState) (T : ℕ) : EmitterState × List (ℕ × OrbState) :=
  fireDue s T

/-- A Vapi `message` payload as far as the adapter inspects it. -/
structure VapiMsg where
  type : String
  role : Option String
  transcriptType : Option String
deriving DecidableEq, Repr

/-- The guard in the adapter's `onMessage` handler:
`message.type === 'transcript' && message.transcriptType === 'final' &&
message.role === 'user'`. -/
def isFinalUserTranscript (m : VapiMsg) : Bool :=
  m.type == "transcript" && m.transcriptType == some "final" && m.role == some "user"

/-- The concrete finalized-user-transcript message. -/
def finalUserMsg : VapiMsg := ⟨"transcript", some "user", some "final"⟩

/-- Provider events the subscribed adapter reacts to.  `startCall` is the
intercepted `vapi.start()`, which emits `connecting`. -/
inductive VapiEvent
  | callStart
  | callEnd
  | speechStart
  | speechEnd
  | volumeLevel (v : ℚ)
  | message (m : VapiMsg)
  | errorSignal
  | startCall
deriving DecidableEq, Repr

/-- A callback delivered to the consumer. -/
inductive CbOut
  | stateCb (s : OrbState)
  | volumeCb (v : ℚ)
deriving DecidableEq, Repr

/-- State of one subscribed vapi adapter: the module-level `emaVol`, the
emitter (closure `lastEmitted` plus the module-level `stateDebounceTimer`),
and whether the listeners registered by `subscribe` are still attached. -/
structure AdapterState where
  emaVol : ℚ
  emitter : EmitterState
  attached : Bool
deriving DecidableEq, Repr

/-- Adapter state right after `subscribe` returns (fresh module state). -/
def adapterInit : AdapterState := ⟨0, emitterInit, true⟩

/-- Tag emitter output as `onStateChange` callbacks. -/
def stateOuts (l : List (ℕ × OrbState)) : List (ℕ × CbOut) :=
  l.map (fun p => (p.1, CbOut.stateCb p.2))

/-- One provider event hitting the adapter at time `t`.  When the listeners
have been removed (`attached = false`) the event reaches no handler and
nothing happens.  Otherwise this is the corresponding handler body from
`createVapiAdapter.subscribe`:
`call-start → emitState('listening')`;
`call-end → emitState('disconnected'); onVolumeChange(0); emaVol = 0`;
`speech-start → emitState('speaking')`;
`speech-end → emitState('listening'); onVolumeChange(0)`;
`volume-level → onVolumeChange(normalizeVapiVolume(v))`;
`message → if final user transcript: emitState('thinking'); onVolumeChange(0)`;
`error → emitState('error'); onVolumeChange(0); emaVol = 0`;
intercepted `start → emitState('connecting')`. -/
def handleEvent (s : AdapterState) (t : ℕ) (ev : VapiEvent) :
    AdapterState × List (ℕ × CbOut) :=
  if s.attached then
    match ev with
    | VapiEvent.callStart =>
        let r := emitState s.emitter t OrbState.listening
        ({ s with emitter := r.1 }, stateOuts r.2)
    | VapiEvent.callEnd =>
        let r := emitState s.emitter t OrbState.disconnected
        ({ s with emitter := r.1, emaVol := 0 },
          stateOuts r.2 ++ [(t, CbOut.volumeCb 0)])
    | VapiEvent.speechStart =>
        let r := emitState s.emitter t OrbState.speaking
        ({ s with emitter := r.1 }, stateOuts r.2)
    | VapiEvent.speechEnd =>
        let r := emitState s.emitter t OrbState.listening
        ({ s with emitter := r.1 }, stateOuts r.2 ++ [(t, CbOut.volumeCb 0)])
    | VapiEvent.volumeLevel v =>
        let e := normalizeVapiVolume s.emaVol v
        ({ s with emaVol := e }, [(t, CbOut.volumeCb e)])
    | VapiEvent.message m =>
        if isFinalUserTranscript m then
          let r := emitState s.emitter t OrbState.thinking
          ({ s with emitter := r.1 }, stateOuts r.2 ++ [(t, CbOut.volumeCb 0)])
        else (s, [])
    | VapiEvent.errorSignal =>
        let r := emitState s.emitter t OrbState.error
        ({ s with emitter := r.1, emaVol := 0 },
          stateOuts r.2 ++ [(t, CbOut.volumeCb 0)])
    | VapiEvent.startCall =>
        let r := emitState s.emitter t OrbState.connecting
        ({ s with emitter := r.1 }, stateOuts r.2)
  else (s, [])

/-- Run the adapter over a timed provider-event trace, collecting every
callback delivered to the consumer. -/
def runAdapter (s : AdapterState) :
    List (ℕ × VapiEvent) → AdapterState × List (ℕ × CbOut)
  | [] => (s, [])
  | (t, ev) :: rest =>
      let r := handleEvent s t ev
      let r2 := runAdapter r.1 rest
      (r2.1, r.2 ++ r2.2)

/-- The teardown closure returned by `subscribe`: clear the pending
debounce timer (`clearTimeout`) and remove every listener. -/
def vapiUnsubscribe (s : AdapterState) : AdapterState :=
  { s with emitter := ⟨s.emitter.lastEmitted, none⟩, attached := false }

/-- Two adapter instances subscribed concurrently for sessions A and B: a
volume sample delivered to either session's `volume-level` listener. -/
inductive SessEvent
  | volA (v : ℚ)
  | volB (v : ℚ)
deriving DecidableEq, Repr

/-- Interleaved processing of volume samples for two concurrent sessions.
Both `onVolumeLevel` closures call `normalizeVapiVolume`, which reads and
writes the single module-level `emaVol` — the state is shared, only the
`onVolumeChange` callback differs.  Outputs are tagged `true` for session A
and `false` for session B. -/
def twoSessionRun (emaVol : ℚ) : List SessEvent → ℚ × List (Bool × ℚ)
  | [] => (emaVol, [])
  | SessEvent.volA v :: rest =>
      let e := normalizeVapiVolume emaVol v
      let r := twoSessionRun e rest
      (r.1, (true, e) :: r.2)
  | SessEvent.volB v :: rest =>
      let e := normalizeVapiVolume emaVol v
      let r := twoSessionRun e rest
      (r.1, (false, e) :: r.2)

/-- The listener sets attached to one provider client.  Each call to
`subscribe` registers one full set of handlers via `client.on(...)`; the
source contains no check and no failure path, so `subscribe` is total. -/
structure ClientWiring where
  handlerSets : ℕ
deriving DecidableEq, Repr

/-- `createVapiAdapter(client).subscribe(...)`: unconditionally attaches one
more set of listeners.  No guard against an existing subscription exists. -/
def clientSubscribe (c : ClientWiring) : ClientWiring :=
  ⟨c.handlerSets + 1⟩

/-- A `volume-level` event dispatched to a client with `sets` attached handler
sets: the event emitter invokes every registered `onVolumeLevel` listener in
turn, each reading and writing the shared module-level `emaVol`. -/
def dispatchVolume (sets : ℕ) (emaVol v : ℚ) : ℚ × List ℚ :=
  match sets with
  | 0 => (emaVol, [])
  | n + 1 =>
      let e := normalizeVapiVolume emaVol v
      let r := dispatchVolume n e v
      (r.1, e :: r.2)

/-- CircleTheme strategy 1 (SNAP): asymmetric output lerp — rise rate 0.40,
fall rate 0.10:
`current += (target - current) * (target > current ? 0.40 : 0.10)`. -/
def snapStep (v t : ℚ) : ℚ :=
  v + (t - v) * (if t > v then 40 / 100 else 10 / 100)

/-- CircleTheme strategies 2 and 5 (CRISP/WIDE): symmetric output lerp 0.55:
`current += (target - current) * 0.55`. -/
def crispStep (v t : ℚ) : ℚ :=
  v + (t - v) * (55 / 100)

/-- CircleTheme strategy 3 (PUNCHY): instant — `current = target`. -/
def punchyStep (_v t : ℚ) : ℚ := t

/-- CircleTheme strategy 4 (PEAK-HOLD) acting on `(peakVol, peakHoldFrames)`:
snap to a new local maximum and hold 8 frames, else count the hold down, else
decay `peakVol -= (peakVol - vol) * 0.09`. -/
def peakHoldStep (peak : ℚ) (hold : ℕ) (vol : ℚ) : ℚ × ℕ :=
  if peak ≤ vol then (vol, 8)
  else if 0 < hold then (peak, hold - 1)
  else (peak - (peak - vol) * (9 / 100), 0)

/-- The CRISP visual value frame by frame, starting at 0 with the constant
target 1. -/
def crispIter : ℕ → ℚ
  | 0 => 0
  | n + 1 => crispStep (crispIter n) 1

end OrbUI

namespace OrbUI

lemma gateRaw_nonneg (r : ℚ) : 0 ≤ gateRaw r := by
  unfold gateRaw
  split
  · exact le_refl 0
  · rename_i h
    push_neg at h
    apply div_nonneg
    · unfold NOISE_FLOOR at *
      linarith
    · unfold NOISE_FLOOR
      norm_num

lemma gateRaw_le_one (r : ℚ) (h1 : r ≤ 1) : gateRaw r ≤ 1 := by
  unfold gateRaw
  split
  · norm_num
  · rename_i h
    push_neg at h
    rw [div_le_one (by unfold NOISE_FLOOR; norm_num)]
    linarith

lemma normalize_ge_min (p r : ℚ) :
    min p (gateRaw r) ≤ normalizeVapiVolume p r := by
  unfold normalizeVapiVolume
  by_cases hg : gateRaw r > p
  · simp only [if_pos hg]
    calc min p (gateRaw r) ≤ p := min_le_left _ _
      _ ≤ p + (gateRaw r - p) * (65 / 100) := by nlinarith
  · simp only [if_neg hg]
    push_neg at hg
    calc min p (gateRaw r) ≤ gateRaw r := min_le_right _ _
      _ ≤ p + (gateRaw r - p) * (12 / 100) := by nlinarith

lemma normalize_le_max (p r : ℚ) :
    normalizeVapiVolume p r ≤ max p (gateRaw r) := by
  unfold normalizeVapiVolume
  by_cases hg : gateRaw r > p
  · simp only [if_pos hg]
    calc p + (gateRaw r - p) * (65 / 100) ≤ gateRaw r := by nlinarith
      _ ≤ max p (gateRaw r) := le_max_right _ _
  · simp only [if_neg hg]
    push_neg at hg
    calc p + (gateRaw r - p) * (12 / 100) ≤ p := by nlinarith
      _ ≤ max p (gateRaw r) := le_max_left _ _

end OrbUI

namespace OrbUI

/-- C10: each conditioner smoothing step `p + (g - p) * rate`, with
`rate = 0.65` when `g > p` and `0.12` otherwise, lands inclusively between
the previous smoothed value `p` and the gated target `g = gateRaw r`;
consequently, when both `p` and `g` lie in `[0,1]` so does the new value. -/
theorem ema_step_between_C10 (p r : ℚ) :
    (min p (gateRaw r) ≤ normalizeVapiVolume p r ∧
      normalizeVapiVolume p r ≤ max p (gateRaw r)) ∧
    (0 ≤ p → p ≤ 1 → 0 ≤ gateRaw r → gateRaw r ≤ 1 →
      0 ≤ normalizeVapiVolume p r ∧ normalizeVapiVolume p r ≤ 1) := by
  refine ⟨⟨normalize_ge_min p r, normalize_le_max p r⟩, ?_⟩
  intro hp0 hp1 hg0 hg1
  constructor
  · exact le_trans (le_min hp0 hg0) (normalize_ge_min p r)
  · exact le_trans (normalize_le_max p r) (max_le hp1 hg1)

/-- Witness for C10 at `p = 1/2`, `r = 667/1000`. -/
theorem ema_step_between_C10_witness :
    0 ≤ normalizeVapiVolume (1 / 2) (667 / 1000) ∧
      normalizeVapiVolume (1 / 2) (667 / 1000) ≤ 1 :=
  (ema_step_between_C10 (1 / 2) (667 / 1000)).2 (by norm_num) (by norm_num)
    (gateRaw_nonneg (667 / 1000))
    (gateRaw_le_one (667 / 1000) (by norm_num))

/-- C2 counterexample: the source contains no clamp, so the raw sample `2`
(out of range) drives the output above `1` starting from smoothed value `0`:
`normalizeVapiVolume 0 2 = 611/440 > 1`. -/
theorem vapi_no_clamp_counterexample_C2 :
    normalizeVapiVolume 0 2 = 611 / 440 ∧ (1 : ℚ) < normalizeVapiVolume 0 2 := by
  constructor <;> norm_num [normalizeVapiVolume, gateRaw, NOISE_FLOOR]

/-- C2 (amended): for raw samples in `[0,1]` and a previous smoothed value in
`[0,1]`, the conditioner's output stays in `[0,1]`; there is no clamping step,
so this containment comes from the gate and the smoothing arithmetic alone
(and fails for raw input above 1, as the counterexample shows). -/
theorem vapi_bounded_on_unit_inputs_C2 (p r : ℚ)
    (hp0 : 0 ≤ p) (hp1 : p ≤ 1) (hr0 : 0 ≤ r) (hr1 : r ≤ 1) :
    0 ≤ normalizeVapiVolume p r ∧ normalizeVapiVolume p r ≤ 1 := by
  constructor
  · exact le_trans (le_min hp0 (gateRaw_nonneg r)) (normalize_ge_min p r)
  · exact le_trans (normalize_le_max p r) (max_le hp1 (gateRaw_le_one r hr1))

/-- Witness for C2's amended theorem at `p = 0`, `r = 667/1000`. -/
theorem vapi_bounded_on_unit_inputs_C2_witness :
    0 ≤ normalizeVapiVolume 0 (667 / 1000) ∧
      normalizeVapiVolume 0 (667 / 1000) ≤ 1 :=
  vapi_bounded_on_unit_inputs_C2 0 (667 / 1000) (by norm_num) (by norm_num)
    (by norm_num) (by norm_num)

end OrbUI

namespace OrbUI

/-- C1: the debouncer implements the §4.2 rule with a 350 ms window:
(a) a request for `listening` while `speaking` is active is held — nothing is
emitted and a timer with deadline `t + 350` is armed; (b) a `speaking` request
arriving while held cancels the timer, so the held `listening` is never
emitted (the repeated `speaking` itself goes out immediately); (c) with no
further request, `listening` is emitted exactly once, at the deadline; (d) a
request for any target other than the held pair cancels the pending timer and
is emitted immediately, with no added delay. -/
theorem vapi_debounce_rule_C1 (s : EmitterState) (t u d T : ℕ) (next : OrbState) :
    DEBOUNCE_MS = 350 ∧
    (s.timer = none → s.lastEmitted = OrbState.speaking →
      emitState s t OrbState.listening =
        (⟨OrbState.speaking, some (t + DEBOUNCE_MS, OrbState.listening)⟩, [])) ∧
    (u < d →
      emitState ⟨OrbState.speaking, some (d, OrbState.listening)⟩ u OrbState.speaking =
        (⟨OrbState.speaking, none⟩, [(u, OrbState.speaking)])) ∧
    (d ≤ T →
      flushAt ⟨OrbState.speaking, some (d, OrbState.listening)⟩ T =
        (⟨OrbState.listening, none⟩, [(d, OrbState.listening)])) ∧
    (u < d → ¬(s.lastEmitted = OrbState.speaking ∧ next = OrbState.listening) →
      emitState ⟨s.lastEmitted, some (d, OrbState.listening)⟩ u next =
        (⟨next, none⟩, [(u, next)])) := by
  refine ⟨rfl, ?_, ?_, ?_, ?_⟩
  · intro hnone hsp
    simp [emitState, fireDue, hnone, hsp]
  · intro hud
    simp [emitState, fireDue, Nat.not_le.mpr hud]
  · intro hdT
    simp [flushAt, fireDue, hdT]
  · intro hud hpair
    simp [emitState, fireDue, Nat.not_le.mpr hud, hpair]

/-- Witness for C1: `speaking` active with no timer at `t = 0`; a held timer
with deadline 350 challenged at `u = 100`; a flush at `T = 400`; an immediate
`thinking` request at `u = 100`. -/
theorem vapi_debounce_rule_C1_witness :
    DEBOUNCE_MS = 350 ∧
    emitState ⟨OrbState.speaking, none⟩ 0 OrbState.listening =
      (⟨OrbState.speaking, some (350, OrbState.listening)⟩, []) ∧
    emitState ⟨OrbState.speaking, some (350, OrbState.listening)⟩ 100 OrbState.speaking =
      (⟨OrbState.speaking, none⟩, [(100, OrbState.speaking)]) ∧
    flushAt ⟨OrbState.speaking, some (350, OrbState.listening)⟩ 400 =
      (⟨OrbState.listening, none⟩, [(350, OrbState.listening)]) ∧
    emitState ⟨OrbState.speaking, some (350, OrbState.listening)⟩ 100 OrbState.thinking =
      (⟨OrbState.thinking, none⟩, [(100, OrbState.thinking)]) := by
  have h := vapi_debounce_rule_C1 ⟨OrbState.speaking, none⟩ 0 100 350 400 OrbState.thinking
  exact ⟨h.1, h.2.1 rfl rfl, h.2.2.1 (by norm_num), h.2.2.2.1 (by norm_num),
    h.2.2.2.2 (by norm_num) (by simp)⟩

/-- C3 counterexample: a request for the state that is already active is NOT a
no-op — from `lastEmitted = 'listening'`, requesting `listening` again fires
`onStateChange('listening')` a second time. -/
theorem vapi_same_state_reemission_counterexample_C3 :
    runEmitter ⟨OrbState.idle, none⟩ [(0, OrbState.listening), (10, OrbState.listening)] =
      (⟨OrbState.listening, none⟩, [(0, OrbState.listening), (10, OrbState.listening)]) := by
  rfl

/-- C3 (amended): the emitter performs no duplicate suppression: whenever no
timer is pending, a request for the currently active state is re-emitted
immediately (this can never be the debounced `speaking → listening` pair,
since the requested state equals the active one). -/
theorem vapi_reemit_same_state_C3 (s : EmitterState) (t : ℕ)
    (hnone : s.timer = none) :
    emitState s t s.lastEmitted = (⟨s.lastEmitted, none⟩, [(t, s.lastEmitted)]) := by
  have hpair : ¬(s.lastEmitted = OrbState.speaking ∧ s.lastEmitted = OrbState.listening) := by
    rintro ⟨h1, h2⟩
    rw [h1] at h2
    exact absurd h2 (by simp)
  simp [emitState, fireDue, hnone, hpair]

/-- Witness for C3's amended theorem: re-requesting `listening` while it is
already active re-emits it. -/
theorem vapi_reemit_same_state_C3_witness :
    emitState ⟨OrbState.listening, none⟩ 7 OrbState.listening =
      (⟨OrbState.listening, none⟩, [(7, OrbState.listening)]) :=
  vapi_reemit_same_state_C3 ⟨OrbState.listening, none⟩ 7 rfl

end OrbUI

namespace OrbUI

lemma runAdapter_of_detached (s : AdapterState) (evs : List (ℕ × VapiEvent))
    (h : s.attached = false) : runAdapter s evs = (s, []) := by
  induction evs with
  | nil => rfl
  | cons p rest ih =>
      obtain ⟨t, ev⟩ := p
      simp [runAdapter, handleEvent, h, ih]

/-- C4 counterexample: after `speech-start`, a volume sample `0.667`, and the
final user transcript (so the session leaves `speaking` for `thinking`), the
smoothed state `emaVol` is `7111/17600`, not `0` — leaving `speaking` for
`thinking` does not reset the conditioner, contrary to the claim. -/
theorem vapi_thinking_keeps_ema_counterexample_C4 :
    (runAdapter adapterInit
        [(0, VapiEvent.speechStart), (100, VapiEvent.volumeLevel (667 / 1000)),
         (200, VapiEvent.message finalUserMsg)]).1 =
      ⟨7111 / 17600, ⟨OrbState.thinking, none⟩, true⟩ ∧
    (7111 / 17600 : ℚ) ≠ 0 := by
  constructor
  · simp [runAdapter, handleEvent, adapterInit, emitterInit, emitState, fireDue,
      isFinalUserTranscript, finalUserMsg, stateOuts, DEBOUNCE_MS,
      normalizeVapiVolume, gateRaw, NOISE_FLOOR]
    norm_num
  · norm_num

/-- C4 (amended): the smoothed volume state is reset to 0 only when the
session transitions to `disconnected` (call-end) or `error`; on the
`thinking` transition (final user transcript) only a literal `0` is reported
through `onVolumeChange` while `emaVol` is left unchanged, and on
`connecting` (intercepted start) nothing is reset at all. -/
theorem vapi_ema_reset_policy_C4 (s : AdapterState) (t : ℕ)
    (ha : s.attached = true) :
    (handleEvent s t VapiEvent.callEnd).1.emaVol = 0 ∧
    (handleEvent s t VapiEvent.errorSignal).1.emaVol = 0 ∧
    (handleEvent s t (VapiEvent.message finalUserMsg)).1.emaVol = s.emaVol ∧
    (handleEvent s t (VapiEvent.message finalUserMsg)).2.contains
      (t, CbOut.volumeCb 0) = true ∧
    (handleEvent s t VapiEvent.startCall).1.emaVol = s.emaVol := by
  refine ⟨?_, ?_, ?_, ?_, ?_⟩ <;>
    simp [handleEvent, ha, isFinalUserTranscript, finalUserMsg]

/-- Witness for C4's amended theorem at a concrete attached state. -/
theorem vapi_ema_reset_policy_C4_witness :
    (handleEvent ⟨1 / 2, ⟨OrbState.speaking, none⟩, true⟩ 9 VapiEvent.callEnd).1.emaVol = 0 ∧
    (handleEvent ⟨1 / 2, ⟨OrbState.speaking, none⟩, true⟩ 9 VapiEvent.errorSignal).1.emaVol = 0 ∧
    (handleEvent ⟨1 / 2, ⟨OrbState.speaking, none⟩, true⟩ 9
        (VapiEvent.message finalUserMsg)).1.emaVol = (1 / 2 : ℚ) ∧
    (handleEvent ⟨1 / 2, ⟨OrbState.speaking, none⟩, true⟩ 9
        (VapiEvent.message finalUserMsg)).2.contains (9, CbOut.volumeCb 0) = true ∧
    (handleEvent ⟨1 / 2, ⟨OrbState.speaking, none⟩, true⟩ 9 VapiEvent.startCall).1.emaVol =
      (1 / 2 : ℚ) :=
  vapi_ema_reset_policy_C4 ⟨1 / 2, ⟨OrbState.speaking, none⟩, true⟩ 9 rfl

/-- C5: teardown cleanliness.  `vapiUnsubscribe` cancels any pending debounce
timer; afterwards, no provider event trace produces any `onStateChange` or
`onVolumeChange` callback, the adapter state never changes again, and no
timer is ever pending. -/
theorem vapi_teardown_quiescence_C5 (s : AdapterState) (evs : List (ℕ × VapiEvent)) :
    (vapiUnsubscribe s).emitter.timer = none ∧
    runAdapter (vapiUnsubscribe s) evs = (vapiUnsubscribe s, []) ∧
    (runAdapter (vapiUnsubscribe s) evs).1.emitter.timer = none := by
  have hdet : (vapiUnsubscribe s).attached = false := rfl
  have hrun := runAdapter_of_detached (vapiUnsubscribe s) evs hdet
  exact ⟨rfl, hrun, by rw [hrun]; rfl⟩

/-- C6 counterexample: the conditioner run on
`[0.02, 0.667, 0.007, 0.667, 0.007]` (floor 0.12, attack 0.65, release 0.12,
initial value 0) yields exactly
`[0, 7111/17600, 7111/20000, 2325297/4400000, 2325297/5000000]`; the third
output `7111/20000 ≈ 0.356` is below `1/2`, so the smoothed value does NOT
stay above ~0.5 throughout the alternating sequence. -/
theorem vapi_sequence_dips_counterexample_C6 :
    runConditioner 0 [2 / 100, 667 / 1000, 7 / 1000, 667 / 1000, 7 / 1000] =
      [0, 7111 / 17600, 7111 / 20000, 2325297 / 4400000, 2325297 / 5000000] ∧
    (7111 / 20000 : ℚ) < 1 / 2 := by
  constructor
  · norm_num [runConditioner, normalizeVapiVolume, gateRaw, NOISE_FLOOR]
  · norm_num

/-- C6 (amended): on that sequence the first sample gates to exactly 0, and
every later output stays strictly above `7/20 = 0.35` (so it never drops near
0 between ticks), but it dips below `1/2` rather than staying above ~0.5. -/
theorem vapi_sequence_bounds_C6 :
    (runConditioner 0 [2 / 100, 667 / 1000, 7 / 1000, 667 / 1000, 7 / 1000]).head? =
      some 0 ∧
    ∀ x ∈ (runConditioner 0 [2 / 100, 667 / 1000, 7 / 1000, 667 / 1000, 7 / 1000]).drop 1,
      7 / 20 < x ∧ x < 1 := by
  constructor
  · norm_num [runConditioner, normalizeVapiVolume, gateRaw, NOISE_FLOOR]
  · norm_num [runConditioner, normalizeVapiVolume, gateRaw, NOISE_FLOOR]

/-- Witness for C6's amended theorem at the second output `7111/17600`. -/
theorem vapi_sequence_bounds_C6_witness :
    7 / 20 < (7111 / 17600 : ℚ) ∧ (7111 / 17600 : ℚ) < 1 :=
  vapi_sequence_bounds_C6.2 (7111 / 17600)
    (by norm_num [runConditioner, normalizeVapiVolume, gateRaw, NOISE_FLOOR])

/-- C7 counterexample to noninterference: with only session A receiving the
sample `0.667`, A observes `7111/17600`; if session B receives `0.667` first,
A's observation of the very same sample becomes `191997/352000`, because both
sessions share the module-level `emaVol`. -/
theorem vapi_session_interference_counterexample_C7 :
    ((twoSessionRun 0 [SessEvent.volA (667 / 1000)]).2.filter
        (fun p => p.1)).map (fun p => p.2) = [7111 / 17600] ∧
    ((twoSessionRun 0 [SessEvent.volB (667 / 1000), SessEvent.volA (667 / 1000)]).2.filter
        (fun p => p.1)).map (fun p => p.2) = [191997 / 352000] ∧
    (7111 / 17600 : ℚ) ≠ 191997 / 352000 := by
  refine ⟨?_, ?_, by norm_num⟩
  · norm_num [twoSessionRun, normalizeVapiVolume, gateRaw, NOISE_FLOOR]
  · norm_num [twoSessionRun, normalizeVapiVolume, gateRaw, NOISE_FLOOR]

/-- C7 (amended): `emaVol` is a module-level global shared by every adapter
instance, not per-session state: when session B's sample is processed before
session A's, the value A observes is computed from the state B just wrote. -/
theorem vapi_shared_ema_semantics_C7 (m w v : ℚ) :
    twoSessionRun m [SessEvent.volB w, SessEvent.volA v] =
      (normalizeVapiVolume (normalizeVapiVolume m w) v,
        [(false, normalizeVapiVolume m w),
         (true, normalizeVapiVolume (normalizeVapiVolume m w) v)]) := rfl

/-- C9 counterexample: calling `subscribe` a second time without
unsubscribing does not throw or assert — it is silently accepted and simply
attaches a second set of listeners (`handlerSets = 2`);
`subscribe` has no failure path in the source. -/
theorem double_subscribe_no_throw_counterexample_C9 :
    clientSubscribe (clientSubscribe ⟨0⟩) = ⟨2⟩ := rfl

/-- C9 (amended): contract violations are silently tolerated, not failed
fast: `subscribe` unconditionally attaches one more handler set, and after a
double subscribe every `volume-level` event invokes the volume callback
twice, the second invocation reading the shared `emaVol` the first just
wrote; callbacks after unsubscribe are prevented by listener removal, not by
any throw or assertion. -/
theorem subscribe_total_no_failfast_C9 (c : ClientWiring) (ema v : ℚ) :
    clientSubscribe c = ⟨c.handlerSets + 1⟩ ∧
    (dispatchVolume (clientSubscribe (clientSubscribe ⟨0⟩)).handlerSets ema v).2 =
      [normalizeVapiVolume ema v,
       normalizeVapiVolume (normalizeVapiVolume ema v) v] := ⟨rfl, rfl⟩

end OrbUI

namespace OrbUI

/-- C8 counterexample: under exact arithmetic the symmetric-lerp strategy
(CRISP, `k = 0.55`) started at 0 with the constant target 1 never stops
changing — there is no frame after which it produces no further change, so it
does not converge to the target within a bounded number of frames. -/
theorem lerp_never_quiesces_counterexample_C8 :
    ¬ ∃ N, crispIter (N + 1) = crispIter N := by
  have key : ∀ n, crispIter n = 1 - (9 / 20 : ℚ) ^ n := by
    intro n
    induction n with
    | zero => simp [crispIter]
    | succ k ih =>
        show crispStep (crispIter k) 1 = _
        rw [ih]
        unfold crispStep
        rw [pow_succ]
        ring
  rintro ⟨N, hN⟩
  rw [key, key, pow_succ] at hN
  have hp : (0 : ℚ) < (9 / 20 : ℚ) ^ N := by positivity
  nlinarith

/-- C8 (amended): every strategy is non-overshooting and monotonically
approaches a constant target: each SNAP/CRISP step stays inclusively between
the current value and the target, PUNCHY reaches the target in a single
frame, the PEAK-HOLD value stays between the held peak and the target and
snaps immediately on a rise; the CRISP distance to the target contracts by
exactly the factor `9/20` per frame and the SNAP distance by at least `9/10`
— so the value converges to the target, but for the lerp strategies exact
finite-frame quiescence fails (it occurs only through floating-point
rounding), as the counterexample shows. -/
theorem strategies_no_overshoot_C8 (v t peak vol : ℚ) (hold : ℕ) :
    (min v t ≤ snapStep v t ∧ snapStep v t ≤ max v t) ∧
    (min v t ≤ crispStep v t ∧ crispStep v t ≤ max v t) ∧
    punchyStep v t = t ∧
    (min peak vol ≤ (peakHoldStep peak hold vol).1 ∧
      (peakHoldStep peak hold vol).1 ≤ max peak vol) ∧
    |t - crispStep v t| = |t - v| * (9 / 20) ∧
    |t - snapStep v t| ≤ |t - v| * (9 / 10) ∧
    (peak ≤ vol → peakHoldStep peak hold vol = (vol, 8)) := by
  refine ⟨?_, ?_, rfl, ?_, ?_, ?_, ?_⟩
  · unfold snapStep
    by_cases h : t > v
    · simp only [if_pos h]
      constructor
      · exact le_trans (min_le_left _ _) (by nlinarith)
      · exact le_trans (by nlinarith) (le_max_right v t)
    · simp only [if_neg h]
      push_neg at h
      constructor
      · exact le_trans (min_le_right _ _) (by nlinarith)
      · exact le_trans (by nlinarith) (le_max_left v t)
  · unfold crispStep
    by_cases h : t > v
    · constructor
      · exact le_trans (min_le_left _ _) (by nlinarith)
      · exact le_trans (by nlinarith) (le_max_right v t)
    · push_neg at h
      constructor
      · exact le_trans (min_le_right _ _) (by nlinarith)
      · exact le_trans (by nlinarith) (le_max_left v t)
  · unfold peakHoldStep
    by_cases h1 : peak ≤ vol
    · simp only [if_pos h1]
      exact ⟨min_le_right _ _, le_max_right _ _⟩
    · push_neg at h1
      simp only [if_neg (not_le.mpr h1)]
      by_cases h2 : 0 < hold
      · simp only [if_pos h2]
        exact ⟨min_le_left _ _, le_max_left _ _⟩
      · simp only [if_neg h2]
        constructor
        · exact le_trans (min_le_right _ _) (by nlinarith)
        · exact le_trans (by nlinarith) (le_max_left _ _)
  · have e : t - crispStep v t = (t - v) * (9 / 20) := by unfold crispStep; ring
    rw [e, abs_mul, abs_of_nonneg (show (0 : ℚ) ≤ 9 / 20 by norm_num)]
  · unfold snapStep
    by_cases h : t > v
    · simp only [if_pos h]
      have e : t - (v + (t - v) * (40 / 100)) = (t - v) * (3 / 5) := by ring
      rw [e, abs_mul, abs_of_nonneg (show (0 : ℚ) ≤ 3 / 5 by norm_num)]
      have := abs_nonneg (t - v)
      nlinarith
    · simp only [if_neg h]
      have e : t - (v + (t - v) * (10 / 100)) = (t - v) * (9 / 10) := by ring
      rw [e, abs_mul, abs_of_nonneg (show (0 : ℚ) ≤ 9 / 10 by norm_num)]
  · intro h
    unfold peakHoldStep
    simp only [if_pos h]

/-- Witness for C8's amended theorem: a rise (`peak = 0 ≤ vol = 1/2`) snaps
immediately to the new peak and re-arms the 8-frame hold. -/
theorem strategies_no_overshoot_C8_witness :
    peakHoldStep 0 3 (1 / 2) = (1 / 2, 8) :=
  (strategies_no_overshoot_C8 0 1 0 (1 / 2) 3).2.2.2.2.2.2 (by norm_num)

end OrbUI
